import Mathlib

/-
Verification of the kata containerd-shim lifecycle code and the
virtcontainers proxy-type registry.

Shallow embedding conventions:
  * Go errors are modelled by the inductive GoError; fallible calls into the
    sandbox control API ("vci") are modelled as Except GoError results that an
    environment record supplies, one field per API call site.
  * Each orchestrator function is a pure Lean function from its environment
    (and host-side state) to a result record carrying the returned error, the
    updated state, the ordered trace of API calls it issued, and the warnings
    it logged.
  * Go maps are modelled as association lists with mapLookup / mapDelete /
    mapInsert.
  * Go strings are Lean Strings; strings.Split with the one-character
    separator "/" is modelled by goSplitChar over the character list.
-/

/-- Errors produced by the shim code or returned by the sandbox control API.
The bug constructors model the two fmt.Errorf "Bug, ..." errors of
startContainer; cannotEnter models the wrapping error of startExec;
notFound models the lookup errors of getContainer / getExec; api is an
opaque error coming back from a sandbox control API call. -/
inductive GoError where
  | bugEmptyType (cid : String)
  | bugNoSandbox (cid : String)
  | cannotEnter (cid : String) (e : GoError)
  | notFound (id : String)
  | api (n : Nat)
deriving DecidableEq, Repr

/-- Predicate for the two "Bug, ..." errors of startContainer. -/
def GoError.isBug : GoError → Bool
  | .bugEmptyType _ => true
  | .bugNoSandbox _ => true
  | _ => false

/-- Container state as reported by the virtcontainers status
(vc.StateReady, vc.StateRunning, vc.StatePaused, vc.StateStopped). -/
inductive VCState where
  | ready
  | running
  | paused
  | stopped
deriving DecidableEq, Repr

/-- OCI-level container state vocabulary (oci.StateCreated, oci.StateRunning,
oci.StatePaused, oci.StateStopped). -/
inductive OCIState where
  | created
  | running
  | paused
  | stopped
deriving DecidableEq, Repr

/-- Modelled from the spec: oci.StateToOCIState lives in
virtcontainers/pkg/oci, which is not part of the supplied sources; the spec
says container status is "translatable to created|running|stopped", so ready
translates to created and every other state to its namesake. -/
def stateToOCIState : VCState → OCIState
  | .ready => .created
  | .running => .running
  | .paused => .paused
  | .stopped => .stopped

/-- Container status record returned by StatusContainer; the Go code reads
status.State (cleanupContainer) or status.State.State (deleteContainer),
both of which are the vc state modelled here. -/
structure ContainerStatus where
  state : VCState
deriving DecidableEq, Repr

/-- Containerd task status (task.Status); startContainer and startExec set
task.StatusRunning. -/
inductive TaskStatus where
  | unknownStatus
  | created
  | running
  | stopped
deriving DecidableEq, Repr

/-- Container type (vc annotations); the Go zero value "" is the unset case
and cType.IsSandbox() distinguishes the sandbox-representative container. -/
inductive ContainerType where
  | unset
  | podSandbox
  | podContainer
deriving DecidableEq, Repr

/-- ContainerType.IsSandbox from the virtcontainers annotations package. -/
def ContainerType.IsSandbox : ContainerType → Bool
  | .podSandbox => true
  | _ => false

/-- One entry in the ordered trace of sandbox control API calls and
launched background activities recorded by the embedded functions. -/
inductive ApiCall where
  | fetchSandbox
  | statusContainer
  | killContainer
  | stopContainer
  | deleteContainer
  | unmountAll
  | stopSandbox
  | deleteSandbox
  | startSandbox
  | startContainer
  | ioStream
  | newTty
  | ioCopy
  | closeExitIOch
  | wait
  | enterContainer
  | winsizeProcess (height width : Nat)
deriving DecidableEq, Repr

/-- Warnings logged via logrus Warn / Warnf in the embedded functions. -/
inductive Warning where
  | statusFailed
  | killFailed
  | stopFailed
  | removeContainerFailed
  | unmountFailed
  | stopSandboxFailed
  | deleteSandboxFailed
deriving DecidableEq, Repr

/-- Association-list lookup, modelling a Go map read. -/
def mapLookup {α β : Type} [DecidableEq α] : List (α × β) → α → Option β
  | [], _ => none
  | (k, v) :: rest, key => if k = key then some v else mapLookup rest key

/-- Association-list key removal, modelling the Go builtin delete(m, k). -/
def mapDelete {α β : Type} [DecidableEq α] (m : List (α × β)) (key : α) :
    List (α × β) :=
  m.filter (fun p => p.1 ≠ key)

/-- Association-list insertion, modelling the Go map write m[k] = v. -/
def mapInsert {α β : Type} [DecidableEq α] (m : List (α × β)) (key : α)
    (v : β) : List (α × β) :=
  (key, v) :: mapDelete m key

/- From utils.go: IsEphemeralStorage. -/

/-- The k8sEmptyDir constant of utils.go, as a character list. -/
def k8sEmptyDir : List Char := "kubernetes.io~empty-dir".toList

/-- Go strings.Split specialised to a one-character separator: splits the
character list on every occurrence of sep, keeping empty components, and
yields one component ([[]]) on the empty input, exactly as strings.Split. -/
def goSplitChar (sep : Char) : List Char → List (List Char)
  | [] => [[]]
  | c :: cs =>
    let rest := goSplitChar sep cs
    if c = sep then [] :: rest
    else
      match rest with
      | [] => [[c]]
      | r :: rs => (c :: r) :: rs

/-- IsEphemeralStorage from utils.go: split the path on "/" and report
whether the second-to-last component equals k8sEmptyDir. -/
def IsEphemeralStorage (path : String) : Bool :=
  let splitSourceSlice := goSplitChar '/' path.toList
  if splitSourceSlice.length > 1 then
    let storageType := splitSourceSlice.getD (splitSourceSlice.length - 2) []
    storageType = k8sEmptyDir
  else
    false

/-- goSplitChar never returns the empty list of components. -/
theorem goSplitChar_ne_nil (sep : Char) (l : List Char) :
    goSplitChar sep l ≠ [] := by
  induction l with
  | nil => simp [goSplitChar]
  | cons c cs ih =>
    simp only [goSplitChar]
    by_cases h : c = sep
    · simp [h]
    · simp only [h, if_false]
      cases hr : goSplitChar sep cs with
      | nil => simp
      | cons r rs => simp

/-- A list without the separator splits into a single component. -/
theorem goSplitChar_length_of_not_mem (sep : Char) (l : List Char)
    (h : sep ∉ l) : (goSplitChar sep l).length = 1 := by
  induction l with
  | nil => simp [goSplitChar]
  | cons c cs ih =>
    have hc : c ≠ sep := fun hc => h (by simp [hc])
    have hcs : sep ∉ cs := fun hm => h (List.mem_cons_of_mem _ hm)
    simp only [goSplitChar, hc, if_false]
    cases hr : goSplitChar sep cs with
    | nil => exact absurd hr (goSplitChar_ne_nil sep cs)
    | cons r rs =>
      have := ih hcs
      rw [hr] at this
      simpa using this

/- From utils.go: cleanupContainer. -/

deriving instance DecidableEq for Except

/-- Result of the sandbox fetched by vci.FetchSandbox in cleanupContainer;
statusContainer models sandbox.StatusContainer(cid) and allContainers the
identifiers returned by sandbox.GetAllContainers(). -/
structure CleanupSandbox where
  statusContainer : Except GoError ContainerStatus
  allContainers : List String
deriving DecidableEq, Repr

/-- Environment for one cleanupContainer run: the outcome of each sandbox
control API call site, in the order the source can reach them. -/
structure CleanupApi where
  fetchSandbox : Except GoError CleanupSandbox
  killContainer : Except GoError Unit
  stopContainer : Except GoError Unit
  deleteContainer : Except GoError Unit
  unmountAll : Except GoError Unit
  stopSandbox : Except GoError Unit
  deleteSandbox : Except GoError Unit
deriving DecidableEq, Repr

/-- Result of a cleanupContainer run: the returned error, the ordered trace
of API calls issued, and the warnings logged. -/
structure CleanupResult where
  error : Option GoError
  calls : List ApiCall
  warns : List Warning
deriving DecidableEq, Repr

/-- Tail of cleanupContainer guarded by len(sandbox.GetAllContainers()) == 0:
vci.StopSandbox then vci.DeleteSandbox, each returning its error. -/
def cleanupCascade (api : CleanupApi) (calls : List ApiCall)
    (warns : List Warning) : CleanupResult :=
  match api.stopSandbox with
  | .error e =>
    ⟨some e, calls ++ [.stopSandbox], warns ++ [.stopSandboxFailed]⟩
  | .ok _ =>
    match api.deleteSandbox with
    | .error e =>
      ⟨some e, calls ++ [.stopSandbox, .deleteSandbox],
        warns ++ [.deleteSandboxFailed]⟩
    | .ok _ => ⟨none, calls ++ [.stopSandbox, .deleteSandbox], warns⟩

/-- Tail of cleanupContainer after the container stop: best-effort
vci.DeleteContainer (error logged, swallowed), best-effort
mount.UnmountAll (error logged, swallowed), then the cascade when the
fetched sandbox has no containers left. -/
def cleanupFinish (api : CleanupApi) (sandbox : CleanupSandbox)
    (calls : List ApiCall) (warns : List Warning) : CleanupResult :=
  let warns1 :=
    match api.deleteContainer with
    | .error _ => warns ++ [Warning.removeContainerFailed]
    | .ok _ => warns
  let warns2 :=
    match api.unmountAll with
    | .error _ => warns1 ++ [Warning.unmountFailed]
    | .ok _ => warns1
  let calls2 := calls ++ [ApiCall.deleteContainer, ApiCall.unmountAll]
  if sandbox.allContainers.length = 0 then
    cleanupCascade api calls2 warns2
  else
    ⟨none, calls2, warns2⟩

/-- cleanupContainer from utils.go: fetch the sandbox, query the container
status, kill with SIGKILL only when the OCI-translated state is not
stopped, stop the container unconditionally, then the best-effort delete
and unmount and the empty-sandbox cascade. -/
def cleanupContainer (api : CleanupApi) : CleanupResult :=
  match api.fetchSandbox with
  | .error e => ⟨some e, [.fetchSandbox], []⟩
  | .ok sandbox =>
    match sandbox.statusContainer with
    | .error e =>
      ⟨some e, [.fetchSandbox, .statusContainer], [.statusFailed]⟩
    | .ok status =>
      if stateToOCIState status.state ≠ OCIState.stopped then
        match api.killContainer with
        | .error e =>
          ⟨some e, [.fetchSandbox, .statusContainer, .killContainer],
            [.killFailed]⟩
        | .ok _ =>
          match api.stopContainer with
          | .error e =>
            ⟨some e,
              [.fetchSandbox, .statusContainer, .killContainer,
                .stopContainer], [.stopFailed]⟩
          | .ok _ =>
            cleanupFinish api sandbox
              [.fetchSandbox, .statusContainer, .killContainer,
                .stopContainer] []
      else
        match api.stopContainer with
        | .error e =>
          ⟨some e, [.fetchSandbox, .statusContainer, .stopContainer],
            [.stopFailed]⟩
        | .ok _ =>
          cleanupFinish api sandbox
            [.fetchSandbox, .statusContainer, .stopContainer] []

/-- The error returned by the cascade tail is the first failure among
StopSandbox and DeleteSandbox, independent of everything before it. -/
theorem cleanupCascade_error (api : CleanupApi) (calls : List ApiCall)
    (warns : List Warning) :
    (cleanupCascade api calls warns).error =
      (match api.stopSandbox with
       | .error e => some e
       | .ok _ =>
         match api.deleteSandbox with
         | .error e => some e
         | .ok _ => none) := by
  rcases hs : api.stopSandbox with e | u
  · simp [cleanupCascade, hs]
  · rcases hd : api.deleteSandbox with e | u <;> simp [cleanupCascade, hs, hd]

/-- The cascade tail appends its own calls after the calls so far. -/
theorem cleanupCascade_calls (api : CleanupApi) (calls : List ApiCall)
    (warns : List Warning) :
    (cleanupCascade api calls warns).calls =
      calls ++
        (match api.stopSandbox with
         | .error _ => [ApiCall.stopSandbox]
         | .ok _ => [ApiCall.stopSandbox, ApiCall.deleteSandbox]) := by
  rcases hs : api.stopSandbox with e | u
  · simp [cleanupCascade, hs]
  · rcases hd : api.deleteSandbox with e | u <;> simp [cleanupCascade, hs, hd]

/-- The cascade tail keeps every warning already logged. -/
theorem cleanupCascade_warns_mono (api : CleanupApi) (calls : List ApiCall)
    (warns : List Warning) (w : Warning) (hw : w ∈ warns) :
    w ∈ (cleanupCascade api calls warns).warns := by
  rcases hs : api.stopSandbox with e | u
  · simp [cleanupCascade, hs, hw]
  · rcases hd : api.deleteSandbox with e | u <;>
      simp [cleanupCascade, hs, hd, hw]

/-- The delete / unmount / cascade tail returns, as its error, exactly the
first failure of the sandbox-level cascade (none when the sandbox still has
containers), whatever the best-effort delete and unmount did. -/
theorem cleanupFinish_error (api : CleanupApi) (sandbox : CleanupSandbox)
    (calls : List ApiCall) (warns : List Warning) :
    (cleanupFinish api sandbox calls warns).error =
      (if sandbox.allContainers.length = 0 then
        (match api.stopSandbox with
         | .error e => some e
         | .ok _ =>
           match api.deleteSandbox with
           | .error e => some e
           | .ok _ => none)
      else none) := by
  by_cases hlen : sandbox.allContainers.length = 0
  · simp only [cleanupFinish, hlen, if_true]
    exact cleanupCascade_error api _ _
  · simp [cleanupFinish, hlen]

/-- Full call trace of the delete / unmount / cascade tail. -/
theorem cleanupFinish_calls (api : CleanupApi) (sandbox : CleanupSandbox)
    (calls : List ApiCall) (warns : List Warning) :
    (cleanupFinish api sandbox calls warns).calls =
      calls ++ [ApiCall.deleteContainer, ApiCall.unmountAll] ++
        (if sandbox.allContainers.length = 0 then
          (match api.stopSandbox with
           | .error _ => [ApiCall.stopSandbox]
           | .ok _ => [ApiCall.stopSandbox, ApiCall.deleteSandbox])
        else []) := by
  by_cases hlen : sandbox.allContainers.length = 0
  · simp only [cleanupFinish, hlen, if_true]
    rw [cleanupCascade_calls]
  · simp [cleanupFinish, hlen]

/-- A best-effort delete failure is logged by the tail. -/
theorem cleanupFinish_warns_delete (api : CleanupApi)
    (sandbox : CleanupSandbox) (calls : List ApiCall) (warns : List Warning)
    (e : GoError) (hd : api.deleteContainer = .error e) :
    Warning.removeContainerFailed ∈ (cleanupFinish api sandbox calls warns).warns := by
  by_cases hlen : sandbox.allContainers.length = 0
  · simp only [cleanupFinish, hlen, if_true]
    apply cleanupCascade_warns_mono
    rcases hu : api.unmountAll with e2 | u <;> simp [hd, hu]
  · rcases hu : api.unmountAll with e2 | u <;>
      simp [cleanupFinish, hlen, hd, hu]

/-- A best-effort unmount failure is logged by the tail. -/
theorem cleanupFinish_warns_unmount (api : CleanupApi)
    (sandbox : CleanupSandbox) (calls : List ApiCall) (warns : List Warning)
    (e : GoError) (hu : api.unmountAll = .error e) :
    Warning.unmountFailed ∈ (cleanupFinish api sandbox calls warns).warns := by
  by_cases hlen : sandbox.allContainers.length = 0
  · simp only [cleanupFinish, hlen, if_true]
    apply cleanupCascade_warns_mono
    rcases hd : api.deleteContainer with e2 | u <;> simp [hd, hu]
  · rcases hd : api.deleteContainer with e2 | u <;>
      simp [cleanupFinish, hlen, hd, hu]

/-- When fetch and status succeed and the container kill and stop succeed,
cleanupContainer reduces to the delete / unmount / cascade tail. -/
theorem cleanupContainer_eq_finish (api : CleanupApi) (sb : CleanupSandbox)
    (st : ContainerStatus) (hfetch : api.fetchSandbox = .ok sb)
    (hstatus : sb.statusContainer = .ok st)
    (hkill : api.killContainer = .ok ())
    (hstop : api.stopContainer = .ok ()) :
    cleanupContainer api =
      cleanupFinish api sb
        (if stateToOCIState st.state ≠ OCIState.stopped then
          [ApiCall.fetchSandbox, ApiCall.statusContainer,
            ApiCall.killContainer, ApiCall.stopContainer]
        else
          [ApiCall.fetchSandbox, ApiCall.statusContainer,
            ApiCall.stopContainer]) [] := by
  by_cases h : stateToOCIState st.state = OCIState.stopped <;>
    simp [cleanupContainer, hfetch, hstatus, hkill, hstop, h]

/-- C1: for every cleanupContainer call that reaches the cascade (fetch,
status, kill and stop of the container all succeed) and whose fetched
sandbox reports zero remaining containers, the sandbox is stopped and then
deleted; a failure of the sandbox-stop or of the sandbox-delete is
returned as cleanupContainer's error, while a failure of the per-container
delete or of the rootfs unmount is logged and never returned. -/
theorem cleanupContainer_cascade_error_propagation (api : CleanupApi)
    (sb : CleanupSandbox) (st : ContainerStatus)
    (hfetch : api.fetchSandbox = .ok sb)
    (hstatus : sb.statusContainer = .ok st)
    (hkill : api.killContainer = .ok ())
    (hstop : api.stopContainer = .ok ())
    (hempty : sb.allContainers = []) :
    (∀ e, api.stopSandbox = .error e →
      (cleanupContainer api).error = some e) ∧
    (∀ e, api.stopSandbox = .ok () → api.deleteSandbox = .error e →
      (cleanupContainer api).error = some e) ∧
    (api.stopSandbox = .ok () → api.deleteSandbox = .ok () →
      (cleanupContainer api).error = none) ∧
    (api.stopSandbox = .ok () →
      ∃ l, (cleanupContainer api).calls =
        l ++ [ApiCall.stopSandbox, ApiCall.deleteSandbox]) ∧
    (∀ e, api.stopSandbox = .error e →
      ∃ l, (cleanupContainer api).calls = l ++ [ApiCall.stopSandbox]) ∧
    (∀ e, api.deleteContainer = .error e →
      Warning.removeContainerFailed ∈ (cleanupContainer api).warns) ∧
    (∀ e, api.unmountAll = .error e →
      Warning.unmountFailed ∈ (cleanupContainer api).warns) := by
  rw [cleanupContainer_eq_finish api sb st hfetch hstatus hkill hstop]
  have hlen : sb.allContainers.length = 0 := by rw [hempty]; rfl
  refine ⟨?_, ?_, ?_, ?_, ?_, ?_, ?_⟩
  · intro e hss
    rw [cleanupFinish_error, hlen, if_pos rfl, hss]
  · intro e hss hds
    rw [cleanupFinish_error, hlen, if_pos rfl, hss, hds]
  · intro hss hds
    rw [cleanupFinish_error, hlen, if_pos rfl, hss, hds]
  · intro hss
    rw [cleanupFinish_calls, hlen, if_pos rfl, hss]
    by_cases h : stateToOCIState st.state = OCIState.stopped
    · exact ⟨[ApiCall.fetchSandbox, ApiCall.statusContainer,
        ApiCall.stopContainer, ApiCall.deleteContainer, ApiCall.unmountAll],
        by simp [h]⟩
    · exact ⟨[ApiCall.fetchSandbox, ApiCall.statusContainer,
        ApiCall.killContainer, ApiCall.stopContainer,
        ApiCall.deleteContainer, ApiCall.unmountAll], by simp [h]⟩
  · intro e hss
    rw [cleanupFinish_calls, hlen, if_pos rfl, hss]
    exact ⟨_, rfl⟩
  · intro e hd
    exact cleanupFinish_warns_delete api sb _ _ e hd
  · intro e hu
    exact cleanupFinish_warns_unmount api sb _ _ e hu

/-- Concrete sandbox for the C1 witness: one running container, none left. -/
def sbC1w : CleanupSandbox :=
  { statusContainer := .ok { state := VCState.running }, allContainers := [] }

/-- Concrete environment for the C1 witness: container steps succeed, the
best-effort delete fails, and the sandbox stop fails. -/
def apiC1w : CleanupApi :=
  { fetchSandbox := .ok sbC1w
    killContainer := .ok ()
    stopContainer := .ok ()
    deleteContainer := .error (.api 3)
    unmountAll := .ok ()
    stopSandbox := .error (.api 7)
    deleteSandbox := .ok () }

/-- Witness for C1 at a concrete environment: the sandbox-stop failure is
returned while the per-container delete failure is only logged. -/
theorem cleanupContainer_cascade_error_propagation_w :
    (cleanupContainer apiC1w).error = some (GoError.api 7) ∧
    Warning.removeContainerFailed ∈ (cleanupContainer apiC1w).warns := by
  have h := cleanupContainer_cascade_error_propagation apiC1w sbC1w
    { state := VCState.running } rfl rfl rfl rfl rfl
  exact ⟨h.1 (GoError.api 7) rfl, h.2.2.2.2.2.1 (GoError.api 3) rfl⟩

/-- Concrete sandbox whose container status is already stopped. -/
def sbStopped : CleanupSandbox :=
  { statusContainer := .ok { state := VCState.stopped }
    allContainers := ["other"] }

/-- Concrete environment in which every API call succeeds and the queried
container is already stopped. -/
def apiStopped : CleanupApi :=
  { fetchSandbox := .ok sbStopped
    killContainer := .ok ()
    stopContainer := .ok ()
    deleteContainer := .ok ()
    unmountAll := .ok ()
    stopSandbox := .ok ()
    deleteSandbox := .ok () }

/-- C2 counterexample: on a container whose queried state is already
stopped, cleanupContainer still issues the stop call before the delete, so
it does not proceed directly to delete without invoking stop. -/
theorem cleanupContainer_stop_unconditional_cex :
    sbStopped.statusContainer = .ok { state := VCState.stopped } ∧
    stateToOCIState VCState.stopped = OCIState.stopped ∧
    ApiCall.killContainer ∉ (cleanupContainer apiStopped).calls ∧
    ApiCall.stopContainer ∈ (cleanupContainer apiStopped).calls := by
  refine ⟨rfl, rfl, ?_, ?_⟩ <;> decide

/-- C2 amended: in cleanupContainer the kill is issued only when the
queried, OCI-translated container state is not stopped, but the stop is
issued unconditionally, even for an already-stopped container, before
proceeding to the delete. -/
theorem cleanupContainer_kill_conditional_stop_unconditional
    (api : CleanupApi) (sb : CleanupSandbox) (st : ContainerStatus)
    (hfetch : api.fetchSandbox = .ok sb)
    (hstatus : sb.statusContainer = .ok st) :
    (stateToOCIState st.state = OCIState.stopped →
      ApiCall.killContainer ∉ (cleanupContainer api).calls ∧
      ApiCall.stopContainer ∈ (cleanupContainer api).calls) ∧
    (stateToOCIState st.state ≠ OCIState.stopped →
      ApiCall.killContainer ∈ (cleanupContainer api).calls ∧
      (api.killContainer = .ok () →
        ApiCall.stopContainer ∈ (cleanupContainer api).calls)) ∧
    ((stateToOCIState st.state = OCIState.stopped ∨
        api.killContainer = .ok ()) →
      api.stopContainer = .ok () →
      ApiCall.deleteContainer ∈ (cleanupContainer api).calls) := by
  refine ⟨?_, ?_, ?_⟩
  · intro h
    rcases hsc : api.stopContainer with e | u
    · constructor <;> simp [cleanupContainer, hfetch, hstatus, h, hsc]
    · have hr : cleanupContainer api =
          cleanupFinish api sb
            [ApiCall.fetchSandbox, ApiCall.statusContainer,
              ApiCall.stopContainer] [] := by
        simp [cleanupContainer, hfetch, hstatus, h, hsc]
      rw [hr, cleanupFinish_calls]
      constructor
      · by_cases hlen : sb.allContainers.length = 0
        · rcases hss : api.stopSandbox with e | u <;>
            simp [hlen, hss]
        · simp [hlen]
      · simp
  · intro h
    rcases hk : api.killContainer with e | u
    · constructor
      · simp [cleanupContainer, hfetch, hstatus, h, hk]
      · intro hu
        simp at hu
    · constructor
      · rcases hsc : api.stopContainer with e | u2
        · simp [cleanupContainer, hfetch, hstatus, h, hk, hsc]
        · have hr : cleanupContainer api =
              cleanupFinish api sb
                [ApiCall.fetchSandbox, ApiCall.statusContainer,
                  ApiCall.killContainer, ApiCall.stopContainer] [] := by
            simp [cleanupContainer, hfetch, hstatus, h, hk, hsc]
          rw [hr, cleanupFinish_calls]
          simp
      · intro _
        rcases hsc : api.stopContainer with e | u2
        · simp [cleanupContainer, hfetch, hstatus, h, hk, hsc]
        · have hr : cleanupContainer api =
              cleanupFinish api sb
                [ApiCall.fetchSandbox, ApiCall.statusContainer,
                  ApiCall.killContainer, ApiCall.stopContainer] [] := by
            simp [cleanupContainer, hfetch, hstatus, h, hk, hsc]
          rw [hr, cleanupFinish_calls]
          simp
  · intro hreach hsc
    by_cases h : stateToOCIState st.state = OCIState.stopped
    · have hr : cleanupContainer api =
          cleanupFinish api sb
            [ApiCall.fetchSandbox, ApiCall.statusContainer,
              ApiCall.stopContainer] [] := by
        simp [cleanupContainer, hfetch, hstatus, h, hsc]
      rw [hr, cleanupFinish_calls]
      simp
    · have hk : api.killContainer = .ok () := by
        rcases hreach with hcontra | hk
        · exact absurd hcontra h
        · exact hk
      have hr : cleanupContainer api =
          cleanupFinish api sb
            [ApiCall.fetchSandbox, ApiCall.statusContainer,
              ApiCall.killContainer, ApiCall.stopContainer] [] := by
        simp [cleanupContainer, hfetch, hstatus, h, hk, hsc]
      rw [hr, cleanupFinish_calls]
      simp

/-- Witness for the amended C2 at the concrete already-stopped environment:
kill is skipped, stop and delete are still issued. -/
theorem cleanupContainer_kill_conditional_stop_unconditional_w :
    ApiCall.killContainer ∉ (cleanupContainer apiStopped).calls ∧
    ApiCall.stopContainer ∈ (cleanupContainer apiStopped).calls ∧
    ApiCall.deleteContainer ∈ (cleanupContainer apiStopped).calls := by
  have h := cleanupContainer_kill_conditional_stop_unconditional apiStopped
    sbStopped { state := VCState.stopped } rfl rfl
  exact ⟨(h.1 rfl).1, (h.1 rfl).2, h.2.2 (Or.inl rfl) rfl⟩

/- From delete.go: deleteContainer, together with the container and
service records it manipulates. -/

/-- Terminal geometry and I/O configuration of an exec entry (the tty field
of the exec record in the shim service; fields as used by startExec). -/
structure TtyInfo where
  height : Nat
  width : Nat
  stdin : String
  stdout : String
  stderr : String
  terminal : Bool
deriving DecidableEq, Repr

/-- An exec entry of the shim service (the exec record): the process token
stored as id, the locally allocated pid, the terminal geometry, the task
status, and whether the terminal/pipe adapter has been installed. -/
structure exec where
  id : String
  pid : Nat
  tty : TtyInfo
  status : TaskStatus
  ttyioSet : Bool
deriving DecidableEq, Repr

/-- A container record of the shim service: identifier, local pid, bundle
path, container type, primary I/O paths and terminal flag, task status, the
number of times its exit-notification channel has been closed, whether the
terminal/pipe adapter has been installed, and its exec entries. -/
structure container where
  id : String
  pid : Nat
  bundle : String
  cType : ContainerType
  stdin : String
  stdout : String
  stderr : String
  terminal : Bool
  status : TaskStatus
  exitIOchCloses : Nat
  ttyioSet : Bool
  execs : List (String × exec)
deriving DecidableEq, Repr

/-- The shim service state: the optionally attached sandbox (by id), the
id-indexed container table, the pid-indexed process table mapping a local
pid to an exec id, and the next local pid to allocate. -/
structure service where
  sandbox : Option String
  containers : List (String × container)
  processes : List (Nat × String)
  nextPid : Nat
deriving DecidableEq, Repr

/-- Environment for one deleteContainer run: the outcome of each sandbox
control API call site reachable from delete.go. -/
structure DeleteApi where
  statusContainer : Except GoError ContainerStatus
  stopContainer : Except GoError Unit
  deleteContainer : Except GoError Unit
  unmountAll : Except GoError Unit
deriving DecidableEq, Repr

/-- Result of a deleteContainer run: the returned error, the updated
service state, the ordered trace of API calls, and the warnings logged. -/
structure DeleteResult where
  error : Option GoError
  s : service
  calls : List ApiCall
  warns : List Warning
deriving DecidableEq, Repr

/-- Tail of deleteContainer after the optional stop: vci.DeleteContainer
(error returned), best-effort mount.UnmountAll (error logged), then removal
of the container from the pid-indexed and id-indexed tables. -/
def deleteFinish (api : DeleteApi) (s : service) (c : container)
    (calls : List ApiCall) : DeleteResult :=
  match api.deleteContainer with
  | .error e => ⟨some e, s, calls ++ [.deleteContainer], []⟩
  | .ok _ =>
    let warns :=
      match api.unmountAll with
      | .error _ => [Warning.unmountFailed]
      | .ok _ => []
    let s2 :=
      { s with
        processes := mapDelete s.processes c.pid
        containers := mapDelete s.containers c.id }
    ⟨none, s2, calls ++ [.deleteContainer, .unmountAll], warns⟩

/-- deleteContainer from delete.go: query the container status, stop only
when the state is not vc.StateStopped, then delete, best-effort unmount,
and remove the container from both service tables. -/
def deleteContainer (api : DeleteApi) (s : service) (c : container) :
    DeleteResult :=
  match api.statusContainer with
  | .error e => ⟨some e, s, [.statusContainer], []⟩
  | .ok status =>
    if status.state ≠ VCState.stopped then
      match api.stopContainer with
      | .error e => ⟨some e, s, [.statusContainer, .stopContainer], []⟩
      | .ok _ => deleteFinish api s c [.statusContainer, .stopContainer]
    else
      deleteFinish api s c [.statusContainer]

/-- Deleting a key from an association list makes its lookup fail. -/
theorem mapLookup_mapDelete {α β : Type} [DecidableEq α]
    (m : List (α × β)) (key : α) : mapLookup (mapDelete m key) key = none := by
  induction m with
  | nil => rfl
  | cons p rest ih =>
    by_cases h : p.1 = key
    · simpa [mapDelete, h] using ih
    · simpa [mapDelete, mapLookup, h] using ih

/-- C3: deleteContainer on a container whose queried status is already
stopped issues no stop, still issues the delete, attempts the unmount,
removes the container from the id-indexed and pid-indexed tables, and
returns no error even when the unmount fails (which is only logged). -/
theorem deleteContainer_stopped_skips_stop (api : DeleteApi) (s : service)
    (c : container) (st : ContainerStatus)
    (hstatus : api.statusContainer = .ok st)
    (hstopped : st.state = VCState.stopped)
    (hdel : api.deleteContainer = .ok ()) :
    (deleteContainer api s c).error = none ∧
    ApiCall.stopContainer ∉ (deleteContainer api s c).calls ∧
    ApiCall.deleteContainer ∈ (deleteContainer api s c).calls ∧
    ApiCall.unmountAll ∈ (deleteContainer api s c).calls ∧
    (deleteContainer api s c).s.containers = mapDelete s.containers c.id ∧
    (deleteContainer api s c).s.processes = mapDelete s.processes c.pid ∧
    mapLookup (deleteContainer api s c).s.containers c.id = none ∧
    (∀ e, api.unmountAll = .error e →
      Warning.unmountFailed ∈ (deleteContainer api s c).warns) := by
  have hr : deleteContainer api s c =
      deleteFinish api s c [ApiCall.statusContainer] := by
    simp [deleteContainer, hstatus, hstopped]
  rw [hr]
  refine ⟨?_, ?_, ?_, ?_, ?_, ?_, ?_, ?_⟩
  · simp [deleteFinish, hdel]
  · rcases hu : api.unmountAll with e | u <;> simp [deleteFinish, hdel, hu]
  · rcases hu : api.unmountAll with e | u <;> simp [deleteFinish, hdel, hu]
  · rcases hu : api.unmountAll with e | u <;> simp [deleteFinish, hdel, hu]
  · simp [deleteFinish, hdel]
  · simp [deleteFinish, hdel]
  · simp [deleteFinish, hdel, mapLookup_mapDelete]
  · intro e hu
    simp [deleteFinish, hdel, hu]

/-- Concrete container and service used by the delete witnesses. -/
def cDelW : container :=
  { id := "c1", pid := 5, bundle := "bundle", cType := .podContainer,
    stdin := "", stdout := "", stderr := "", terminal := false,
    status := .created, exitIOchCloses := 0, ttyioSet := false, execs := [] }

/-- Concrete service holding cDelW in both tables. -/
def sDelW : service :=
  { sandbox := some "sb", containers := [("c1", cDelW)],
    processes := [(5, "")], nextPid := 6 }

/-- Concrete environment for the C3 witness: status reports stopped, the
delete succeeds, and the unmount fails. -/
def apiC3w : DeleteApi :=
  { statusContainer := .ok { state := VCState.stopped }
    stopContainer := .ok ()
    deleteContainer := .ok ()
    unmountAll := .error (.api 9) }

/-- Witness for C3 at a concrete environment. -/
theorem deleteContainer_stopped_skips_stop_w :
    (deleteContainer apiC3w sDelW cDelW).error = none ∧
    ApiCall.stopContainer ∉ (deleteContainer apiC3w sDelW cDelW).calls ∧
    mapLookup (deleteContainer apiC3w sDelW cDelW).s.containers "c1" = none ∧
    Warning.unmountFailed ∈ (deleteContainer apiC3w sDelW cDelW).warns := by
  have h := deleteContainer_stopped_skips_stop apiC3w sDelW cDelW
    { state := VCState.stopped } rfl rfl rfl
  exact ⟨h.1, h.2.1, h.2.2.2.2.2.2.1, h.2.2.2.2.2.2.2 (GoError.api 9) rfl⟩

/-- C4: deleteContainer removes the container from the id-indexed and
pid-indexed tables only after the delete succeeds; when the status query,
the stop, or the delete fails, the error is returned and the service state
is unchanged. -/
theorem deleteContainer_tables_removed_only_after_delete (api : DeleteApi)
    (s : service) (c : container) :
    (∀ e, api.statusContainer = .error e →
      (deleteContainer api s c).error = some e ∧
      (deleteContainer api s c).s = s) ∧
    (∀ st e, api.statusContainer = .ok st → st.state ≠ VCState.stopped →
      api.stopContainer = .error e →
      (deleteContainer api s c).error = some e ∧
      (deleteContainer api s c).s = s) ∧
    (∀ st e, api.statusContainer = .ok st →
      (st.state = VCState.stopped ∨ api.stopContainer = .ok ()) →
      api.deleteContainer = .error e →
      (deleteContainer api s c).error = some e ∧
      (deleteContainer api s c).s = s) ∧
    (∀ st, api.statusContainer = .ok st →
      (st.state = VCState.stopped ∨ api.stopContainer = .ok ()) →
      api.deleteContainer = .ok () →
      (deleteContainer api s c).s.containers = mapDelete s.containers c.id ∧
      (deleteContainer api s c).s.processes = mapDelete s.processes c.pid) := by
  refine ⟨?_, ?_, ?_, ?_⟩
  · intro e hst
    constructor <;> simp [deleteContainer, hst]
  · intro st e hst hns hsc
    constructor <;> simp [deleteContainer, hst, hns, hsc]
  · intro st e hst hreach hdel
    have hr : deleteContainer api s c =
        deleteFinish api s c
          (if st.state = VCState.stopped then [ApiCall.statusContainer]
           else [ApiCall.statusContainer, ApiCall.stopContainer]) := by
      by_cases hss : st.state = VCState.stopped
      · simp [deleteContainer, hst, hss]
      · have hsc : api.stopContainer = .ok () := by
          rcases hreach with hcontra | hok
          · exact absurd hcontra hss
          · exact hok
        simp [deleteContainer, hst, hss, hsc]
    rw [hr]
    constructor <;> simp [deleteFinish, hdel]
  · intro st hst hreach hdel
    have hr : deleteContainer api s c =
        deleteFinish api s c
          (if st.state = VCState.stopped then [ApiCall.statusContainer]
           else [ApiCall.statusContainer, ApiCall.stopContainer]) := by
      by_cases hss : st.state = VCState.stopped
      · simp [deleteContainer, hst, hss]
      · have hsc : api.stopContainer = .ok () := by
          rcases hreach with hcontra | hok
          · exact absurd hcontra hss
          · exact hok
        simp [deleteContainer, hst, hss, hsc]
    rw [hr]
    constructor <;> simp [deleteFinish, hdel]

/-- Concrete environment for the C4 witness: the delete call fails. -/
def apiC4w : DeleteApi :=
  { statusContainer := .ok { state := VCState.stopped }
    stopContainer := .ok ()
    deleteContainer := .error (.api 11)
    unmountAll := .ok () }

/-- Witness for C4 at a concrete environment: the delete failure is
returned and the tables still contain the container. -/
theorem deleteContainer_tables_removed_only_after_delete_w :
    (deleteContainer apiC4w sDelW cDelW).error = some (GoError.api 11) ∧
    (deleteContainer apiC4w sDelW cDelW).s = sDelW := by
  exact (deleteContainer_tables_removed_only_after_delete apiC4w sDelW
    cDelW).2.2.1 { state := VCState.stopped } (GoError.api 11) rfl
    (Or.inl rfl) rfl

/- From delete.go (second excerpt): startContainer and startExec. -/

/-- Environment for one startContainer run: outcomes of StartSandbox /
StartContainer, of s.sandbox.IOStream, and of the terminal/pipe adapter
construction (newTtyIO in the source). -/
structure StartApi where
  startSandbox : Except GoError Unit
  startContainer : Except GoError Unit
  ioStream : Except GoError Unit
  newTty : Except GoError Unit
deriving DecidableEq, Repr

/-- Result of a startContainer run: the returned error, the updated
container record, and the ordered trace of API calls and launched
background activities. -/
structure StartResult where
  error : Option GoError
  c : container
  events : List ApiCall
deriving DecidableEq, Repr

/-- startContainer from delete.go: reject with a bug error when the
container type is unset or no sandbox is attached; start the sandbox or the
container; mark the container running; open the I/O streams; then either
build the terminal/pipe adapter and launch the ioCopy activity (some I/O
path supplied) or close the exit-notification channel (no I/O at all); and
finally launch the wait activity. -/
def startContainer (api : StartApi) (s : service) (c : container) :
    StartResult :=
  if c.cType = ContainerType.unset then
    ⟨some (.bugEmptyType c.id), c, []⟩
  else
    match s.sandbox with
    | none => ⟨some (.bugNoSandbox c.id), c, []⟩
    | some _ =>
      let startRes :=
        if c.cType.IsSandbox then api.startSandbox else api.startContainer
      let startEv : ApiCall :=
        if c.cType.IsSandbox then .startSandbox else .startContainer
      match startRes with
      | .error e => ⟨some e, c, [startEv]⟩
      | .ok _ =>
        let c1 := { c with status := TaskStatus.running }
        match api.ioStream with
        | .error e => ⟨some e, c1, [startEv, .ioStream]⟩
        | .ok _ =>
          if c1.stdin ≠ "" ∨ c1.stdout ≠ "" ∨ c1.stderr ≠ "" then
            match api.newTty with
            | .error e => ⟨some e, c1, [startEv, .ioStream, .newTty]⟩
            | .ok _ =>
              let c2 := { c1 with ttyioSet := true }
              ⟨none, c2, [startEv, .ioStream, .newTty, .ioCopy, .wait]⟩
          else
            let c2 := { c1 with exitIOchCloses := c1.exitIOchCloses + 1 }
            ⟨none, c2, [startEv, .ioStream, .closeExitIOch, .wait]⟩

/-- C5: a successful startContainer on a container whose stdin, stdout and
stderr paths are all empty closes the exit-notification channel exactly
once and neither builds the terminal/pipe adapter nor launches the ioCopy
activity. -/
theorem startContainer_no_io_closes_exit_channel (api : StartApi)
    (s : service) (c : container) (sid : String)
    (hin : c.stdin = "") (hout : c.stdout = "") (herr : c.stderr = "")
    (hch : c.exitIOchCloses = 0)
    (htype : c.cType ≠ ContainerType.unset)
    (hsb : s.sandbox = some sid)
    (hstart : (if c.cType.IsSandbox then api.startSandbox
               else api.startContainer) = .ok ())
    (hio : api.ioStream = .ok ()) :
    (startContainer api s c).error = none ∧
    (startContainer api s c).c.exitIOchCloses = 1 ∧
    ApiCall.closeExitIOch ∈ (startContainer api s c).events ∧
    ApiCall.newTty ∉ (startContainer api s c).events ∧
    ApiCall.ioCopy ∉ (startContainer api s c).events := by
  have hr : startContainer api s c =
      ⟨none,
        { c with
          status := TaskStatus.running
          exitIOchCloses := c.exitIOchCloses + 1 },
        [if c.cType.IsSandbox then ApiCall.startSandbox
         else ApiCall.startContainer,
         ApiCall.ioStream, ApiCall.closeExitIOch, ApiCall.wait]⟩ := by
    by_cases hk : c.cType.IsSandbox
    · rw [if_pos hk] at hstart
      simp [startContainer, htype, hsb, hk, hstart, hio, hin, hout, herr]
    · rw [if_neg hk] at hstart
      simp [startContainer, htype, hsb, hk, hstart, hio, hin, hout, herr]
  rw [hr]
  refine ⟨rfl, by simp [hch], by simp, ?_, ?_⟩ <;>
    by_cases hk : c.cType.IsSandbox <;> simp [hk]

/-- Concrete container with no I/O paths for the C5 witness. -/
def cNoIo : container :=
  { id := "c2", pid := 7, bundle := "bundle", cType := .podContainer,
    stdin := "", stdout := "", stderr := "", terminal := false,
    status := .created, exitIOchCloses := 0, ttyioSet := false, execs := [] }

/-- Concrete service with an attached sandbox for the C5 witness. -/
def sNoIo : service :=
  { sandbox := some "sb", containers := [("c2", cNoIo)], processes := [],
    nextPid := 8 }

/-- Concrete environment for the C5 witness: all calls succeed. -/
def apiC5w : StartApi :=
  { startSandbox := .ok (), startContainer := .ok (), ioStream := .ok (),
    newTty := .ok () }

/-- Witness for C5 at a concrete no-I/O container. -/
theorem startContainer_no_io_closes_exit_channel_w :
    (startContainer apiC5w sNoIo cNoIo).error = none ∧
    (startContainer apiC5w sNoIo cNoIo).c.exitIOchCloses = 1 ∧
    ApiCall.closeExitIOch ∈ (startContainer apiC5w sNoIo cNoIo).events ∧
    ApiCall.newTty ∉ (startContainer apiC5w sNoIo cNoIo).events ∧
    ApiCall.ioCopy ∉ (startContainer apiC5w sNoIo cNoIo).events :=
  startContainer_no_io_closes_exit_channel apiC5w sNoIo cNoIo "sb"
    rfl rfl rfl rfl (by simp [cNoIo]) rfl (by simp [cNoIo, apiC5w]) rfl

/-- C6: startContainer on a container whose type is unset, or on a service
with no attached sandbox, returns a bug error before issuing any sandbox
control API call and leaves the container record unchanged. -/
theorem startContainer_bug_errors_no_side_effects (api : StartApi)
    (s : service) (c : container)
    (h : c.cType = ContainerType.unset ∨ s.sandbox = none) :
    (∃ e, (startContainer api s c).error = some e ∧ e.isBug = true) ∧
    (startContainer api s c).events = [] ∧
    (startContainer api s c).c = c := by
  by_cases ht : c.cType = ContainerType.unset
  · refine ⟨⟨.bugEmptyType c.id, ?_, rfl⟩, ?_, ?_⟩ <;>
      simp [startContainer, ht]
  · have hsb : s.sandbox = none := by
      rcases h with hcontra | hsb
      · exact absurd hcontra ht
      · exact hsb
    refine ⟨⟨.bugNoSandbox c.id, ?_, rfl⟩, ?_, ?_⟩ <;>
      simp [startContainer, ht, hsb]

/-- Concrete container with an unset type for the C6 witness. -/
def cUnset : container :=
  { id := "c3", pid := 9, bundle := "bundle", cType := .unset,
    stdin := "in", stdout := "out", stderr := "err", terminal := false,
    status := .created, exitIOchCloses := 0, ttyioSet := false, execs := [] }

/-- Witness for C6 at a concrete unset-type container. -/
theorem startContainer_bug_errors_no_side_effects_w :
    (∃ e, (startContainer apiC5w sNoIo cUnset).error = some e ∧
      e.isBug = true) ∧
    (startContainer apiC5w sNoIo cUnset).events = [] ∧
    (startContainer apiC5w sNoIo cUnset).c = cUnset :=
  startContainer_bug_errors_no_side_effects apiC5w sNoIo cUnset
    (Or.inl rfl)

/-- Environment for one startExec run: outcomes of EnterContainer (the
process token on success), WinsizeProcess, IOStream, and the terminal/pipe
adapter construction (newTtyIO in the source). -/
structure ExecApi where
  enterContainer : Except GoError String
  winsizeProcess : Except GoError Unit
  ioStream : Except GoError Unit
  newTty : Except GoError Unit
deriving DecidableEq, Repr

/-- Result of a startExec run: the returned exec record (none on failure),
the returned error, the updated service state, and the ordered trace of
API calls and launched background activities. -/
structure StartExecResult where
  res : Option exec
  error : Option GoError
  s : service
  events : List ApiCall
deriving DecidableEq, Repr

/-- Store an updated exec entry back into its container inside the service
tables (the Go code mutates the records through pointers). -/
def serviceUpdateExec (s : service) (containerID execID : String)
    (c : container) (e : exec) : service :=
  let c2 := { c with execs := mapInsert c.execs execID e }
  { s with containers := mapInsert s.containers containerID c2 }

/-- Tail of startExec after the optional window resize: IOStream, the
terminal/pipe adapter, then the ioCopy and wait activities. -/
def startExecStreams (api : ExecApi) (s : service)
    (containerID execID : String) (c : container) (e : exec)
    (events : List ApiCall) : StartExecResult :=
  match api.ioStream with
  | .error err => ⟨none, some err, s, events ++ [.ioStream]⟩
  | .ok _ =>
    match api.newTty with
    | .error err => ⟨none, some err, s, events ++ [.ioStream, .newTty]⟩
    | .ok _ =>
      let e2 := { e with ttyioSet := true }
      let s2 := serviceUpdateExec s containerID execID c e2
      ⟨some e2, none, s2,
        events ++ [.ioStream, .newTty, .ioCopy, .wait]⟩

/-- startExec from delete.go: resolve the container and the exec entry,
enter the container to obtain a process token, record the token, a fresh
local pid and the running status, resize the terminal when nonzero
geometry was requested at exec-create time (aborting on failure), then
open the I/O streams and launch the copy and wait activities. -/
def startExec (api : ExecApi) (s : service) (containerID execID : String) :
    StartExecResult :=
  match mapLookup s.containers containerID with
  | none => ⟨none, some (.notFound containerID), s, []⟩
  | some c =>
    match mapLookup c.execs execID with
    | none => ⟨none, some (.notFound execID), s, []⟩
    | some execs =>
      match api.enterContainer with
      | .error err =>
        ⟨none, some (.cannotEnter containerID err), s, [.enterContainer]⟩
      | .ok token =>
        let pid := s.nextPid
        let e1 :=
          { execs with
            id := token
            pid := pid
            status := TaskStatus.running }
        let s1 :=
          { s with
            processes := mapInsert s.processes pid execID
            nextPid := s.nextPid + 1 }
        let s2 := serviceUpdateExec s1 containerID execID c e1
        if e1.tty.height ≠ 0 ∧ e1.tty.width ≠ 0 then
          match api.winsizeProcess with
          | .error err =>
            ⟨none, some err, s2,
              [.enterContainer,
                .winsizeProcess e1.tty.height e1.tty.width]⟩
          | .ok _ =>
            startExecStreams api s2 containerID execID c e1
              [.enterContainer,
                .winsizeProcess e1.tty.height e1.tty.width]
        else
          startExecStreams api s2 containerID execID c e1 [.enterContainer]

/-- C7: when the exec entry requested nonzero terminal geometry at
exec-create time, startExec issues a window resize with that height and
width right after entering the container and before opening the I/O
streams; a resize failure is returned and aborts the exec start (no
streams opened, no copy activity launched, no exec record returned). -/
theorem startExec_winsize_before_iostream (api : ExecApi) (s : service)
    (containerID execID : String) (c : container) (ex : exec)
    (token : String)
    (hc : mapLookup s.containers containerID = some c)
    (he : mapLookup c.execs execID = some ex)
    (hh : ex.tty.height ≠ 0) (hw : ex.tty.width ≠ 0)
    (hent : api.enterContainer = .ok token) :
    ((startExec api s containerID execID).events.take 2 =
      [ApiCall.enterContainer,
        ApiCall.winsizeProcess ex.tty.height ex.tty.width]) ∧
    (∀ err, api.winsizeProcess = .error err →
      (startExec api s containerID execID).error = some err ∧
      (startExec api s containerID execID).res = none ∧
      ApiCall.ioStream ∉ (startExec api s containerID execID).events ∧
      ApiCall.ioCopy ∉ (startExec api s containerID execID).events) ∧
    (api.winsizeProcess = .ok () →
      (startExec api s containerID execID).events.take 3 =
        [ApiCall.enterContainer,
          ApiCall.winsizeProcess ex.tty.height ex.tty.width,
          ApiCall.ioStream]) := by
  refine ⟨?_, ?_, ?_⟩
  · rcases hwin : api.winsizeProcess with err | u
    · simp [startExec, hc, he, hent, hh, hw, hwin]
    · rcases hio : api.ioStream with e2 | u2
      · simp [startExec, startExecStreams, hc, he, hent, hh, hw, hwin, hio]
      · rcases hty : api.newTty with e3 | u3 <;>
          simp [startExec, startExecStreams, hc, he, hent, hh, hw, hwin,
            hio, hty]
  · intro err hwin
    refine ⟨?_, ?_, ?_, ?_⟩ <;>
      simp [startExec, hc, he, hent, hh, hw, hwin]
  · intro hwin
    rcases hio : api.ioStream with e2 | u2
    · simp [startExec, startExecStreams, hc, he, hent, hh, hw, hwin, hio]
    · rcases hty : api.newTty with e3 | u3 <;>
        simp [startExec, startExecStreams, hc, he, hent, hh, hw, hwin,
          hio, hty]

/-- Concrete exec entry with nonzero terminal geometry. -/
def exW : exec :=
  { id := "", pid := 0,
    tty := { height := 24, width := 80, stdin := "", stdout := "",
             stderr := "", terminal := true },
    status := .created, ttyioSet := false }

/-- Concrete container holding exW. -/
def cExecW : container :=
  { id := "cx", pid := 3, bundle := "bundle", cType := .podContainer,
    stdin := "", stdout := "", stderr := "", terminal := false,
    status := .running, exitIOchCloses := 0, ttyioSet := false,
    execs := [("e1", exW)] }

/-- Concrete service holding cExecW. -/
def sExecW : service :=
  { sandbox := some "sb", containers := [("cx", cExecW)], processes := [],
    nextPid := 10 }

/-- Concrete environment for the C7 witness: entering succeeds and the
window resize fails. -/
def apiC7w : ExecApi :=
  { enterContainer := .ok "tok", winsizeProcess := .error (.api 13),
    ioStream := .ok (), newTty := .ok () }

/-- Witness for C7 at a concrete exec: the resize is issued with the
requested geometry and its failure aborts the exec start. -/
theorem startExec_winsize_before_iostream_w :
    ((startExec apiC7w sExecW "cx" "e1").events.take 2 =
      [ApiCall.enterContainer, ApiCall.winsizeProcess 24 80]) ∧
    (startExec apiC7w sExecW "cx" "e1").error = some (GoError.api 13) ∧
    (startExec apiC7w sExecW "cx" "e1").res = none ∧
    ApiCall.ioStream ∉ (startExec apiC7w sExecW "cx" "e1").events := by
  have h := startExec_winsize_before_iostream apiC7w sExecW "cx" "e1"
    cExecW exW "tok" (by decide) (by decide) (by decide) (by decide) rfl
  have hb := h.2.1 (GoError.api 13) rfl
  exact ⟨h.1, hb.1, hb.2.1, hb.2.2.1⟩

/- ProxyType registry. The implementation lives in virtcontainers/proxy.go,
which is not part of the supplied sources; only its tests are. The
definitions below are therefore modelled from the spec. -/

/-- Modelled from the spec: ProxyType is a closed enumeration of the four
known proxy strategies plus the zero/unset value (the Go zero value of the
string-backed type), which fails validation when parsed but formats to the
empty string. -/
inductive ProxyType where
  | unsetProxyType
  | noProxyType
  | kataProxyType
  | kataBuiltInProxyType
  | noopProxyType
deriving DecidableEq, Repr, Fintype

/-- Modelled from the spec: parse (the Set method on *ProxyType) maps
exactly the four tokens to their enum values; any other input fails with an
unknown-proxy-type error and leaves the target value unchanged from its
caller-supplied default. The pair returned is the updated target value and
the optional error message. -/
def ProxyType.set (pType : ProxyType) (value : String) :
    ProxyType × Option String :=
  if value = "noProxy" then (.noProxyType, none)
  else if value = "kataProxy" then (.kataProxyType, none)
  else if value = "kataBuiltInProxy" then (.kataBuiltInProxyType, none)
  else if value = "noopProxy" then (.noopProxyType, none)
  else (pType, some "unknown proxy type")

/-- Modelled from the spec: format (the String method on ProxyType) is the
inverse mapping on the four known values; the zero/unset value formats to
the empty string, not an error. -/
def ProxyType.string : ProxyType → String
  | .unsetProxyType => ""
  | .noProxyType => "noProxy"
  | .kataProxyType => "kataProxy"
  | .kataBuiltInProxyType => "kataBuiltInProxy"
  | .noopProxyType => "noopProxy"

/-- Proxy strategy variants (noProxy, kataProxy, kataBuiltInProxy,
noopProxy in the source). -/
inductive proxy where
  | noProxy
  | kataProxy
  | kataBuiltInProxy
  | noopProxy
deriving DecidableEq, Repr

/-- Modelled from the spec: construct (newProxy) returns the concrete
strategy object for each of the four known types and a usable default
variant, rather than an error, for the zero/unset value. -/
def newProxy : ProxyType → Except String proxy
  | .unsetProxyType => .ok .noopProxy
  | .noProxyType => .ok .noProxy
  | .kataProxyType => .ok .kataProxy
  | .kataBuiltInProxyType => .ok .kataBuiltInProxy
  | .noopProxyType => .ok .noopProxy

/-- C8: over the four known proxy-type tokens, parse and format are
mutually inverse: parsing the formatted value of any known type yields
that type back with no error (whatever the target held before), and
formatting the parse of any of the four tokens yields the token back. -/
theorem proxyType_roundtrip :
    (∀ t : ProxyType, t ≠ ProxyType.unsetProxyType →
      ∀ cur : ProxyType, cur.set t.string = (t, none)) ∧
    (∀ text : String,
      text ∈ ["noProxy", "kataProxy", "kataBuiltInProxy", "noopProxy"] →
      ∀ cur : ProxyType,
        ((cur.set text).1).string = text ∧ (cur.set text).2 = none) := by
  constructor
  · intro t ht cur
    cases t
    · exact absurd rfl ht
    all_goals cases cur <;> decide
  · intro text htext cur
    fin_cases htext <;> cases cur <;> constructor <;> decide

/-- Witness for C8 at concrete values: a format-then-parse round trip and
a parse-then-format round trip. -/
theorem proxyType_roundtrip_w :
    ProxyType.unsetProxyType.set ProxyType.kataProxyType.string =
      (ProxyType.kataProxyType, none) ∧
    ((ProxyType.unsetProxyType.set "noopProxy").1).string = "noopProxy" := by
  constructor
  · exact proxyType_roundtrip.1 ProxyType.kataProxyType (by decide)
      ProxyType.unsetProxyType
  · exact (proxyType_roundtrip.2 "noopProxy" (by decide)
      ProxyType.unsetProxyType).1

/-- C9: parsing the text unknown fails and leaves the target at its zero
value, never coerced to any of the four valid proxy types, while
constructing a proxy strategy from the zero/unset ProxyType succeeds and
returns a usable default variant with no error. -/
theorem proxyType_unknown_and_default :
    (ProxyType.unsetProxyType.set "unknown").1 =
      ProxyType.unsetProxyType ∧
    ((ProxyType.unsetProxyType.set "unknown").2).isSome = true ∧
    (ProxyType.unsetProxyType.set "unknown").1 ≠ ProxyType.noProxyType ∧
    (ProxyType.unsetProxyType.set "unknown").1 ≠ ProxyType.kataProxyType ∧
    (ProxyType.unsetProxyType.set "unknown").1 ≠
      ProxyType.kataBuiltInProxyType ∧
    (ProxyType.unsetProxyType.set "unknown").1 ≠ ProxyType.noopProxyType ∧
    newProxy ProxyType.unsetProxyType = .ok proxy.noopProxy := by
  decide

/-- C10: IsEphemeralStorage returns true exactly when the path, split on
the slash separator, has at least two components whose second-to-last one
equals the k8s empty-dir marker; in particular it returns false for every
path containing no slash at all. -/
theorem isEphemeralStorage_spec (path : String) :
    (IsEphemeralStorage path = true ↔
      2 ≤ (goSplitChar '/' path.toList).length ∧
      (goSplitChar '/' path.toList).getD
        ((goSplitChar '/' path.toList).length - 2) [] = k8sEmptyDir) ∧
    ('/' ∉ path.toList → IsEphemeralStorage path = false) := by
  have hdef : IsEphemeralStorage path =
      if 1 < (goSplitChar '/' path.toList).length then
        decide ((goSplitChar '/' path.toList).getD
          ((goSplitChar '/' path.toList).length - 2) [] = k8sEmptyDir)
      else false := rfl
  constructor
  · rw [hdef]
    by_cases hl : 1 < (goSplitChar '/' path.toList).length
    · rw [if_pos hl]
      constructor
      · intro h
        exact ⟨hl, of_decide_eq_true h⟩
      · intro h
        exact decide_eq_true h.2
    · rw [if_neg hl]
      constructor
      · intro h
        simp at h
      · intro h
        exact absurd h.1 hl
  · intro hmem
    have hlen := goSplitChar_length_of_not_mem '/' path.toList hmem
    rw [hdef, hlen]
    simp

/-- Witness for C10 at concrete paths: a slash-free path is not ephemeral
storage and a path whose second-to-last component is the empty-dir marker
is. -/
theorem isEphemeralStorage_spec_w :
    IsEphemeralStorage "nodir" = false ∧
    IsEphemeralStorage "a/kubernetes.io~empty-dir/vol" = true := by
  constructor
  · exact (isEphemeralStorage_spec "nodir").2 (by decide)
  · exact (isEphemeralStorage_spec "a/kubernetes.io~empty-dir/vol").1.mpr
      ⟨by decide, by decide⟩
